import Mathlib

/-!
Verification of the Anime Catalog Service (`src/main.py`): a FastAPI route
layer over a MongoDB collection.  We shallowly embed the data model and the
route handlers as pure Lean functions over an explicit store, and settle the
spec's claims against them.

Modelling conventions:
* A stored document is an `Anime` record; the backend collection is a
  `Store := List (String × Anime)` associating each document's `_id`
  (rendered as a string) with its body.  MongoDB guarantees `_id` uniqueness;
  `find_one` returns the first match and `update_one` updates at most one
  document, which the `storeFind`/`storeSet` helpers reproduce.
* Optional BSON fields are `Option`s; `doc.get(k, [])` becomes `·.getD []`.
  MongoDB's `$push` creates the target array when the field is absent, which
  `pushLinks` reproduces on `none`.
* `datetime` timestamps are modelled as naturals (`added_at`), URLs as plain
  strings (pydantic's `HttpUrl` well-formedness check is out of scope).
* HTTP error responses become the `ApiError` sum: `invalidArgument` is a 400
  response, `notFound` a 404.
-/

/-- One playable source: pydantic model `StreamLink` (label + url). -/
structure StreamLink where
  label : String
  url : String
deriving DecidableEq, Repr

/-- Pydantic model `Episode`: number, optional title, optional link list. -/
structure Episode where
  number : Int
  title : Option String
  stream_links : Option (List StreamLink)
deriving DecidableEq, Repr

/-- Pydantic model `Season`: season number and optional episode list. -/
structure Season where
  season : Int
  episodes : Option (List Episode)
deriving DecidableEq, Repr

/-- A stored anime document (fields of `AnimeBase`/`AnimeOut` except the id,
which is the store key). -/
structure Anime where
  title : String
  alt_titles : List String
  type : String
  year : Option Int
  synopsis : Option String
  genres : List String
  poster_url : Option String
  added_at : Nat
  movie_stream_links : Option (List StreamLink)
  seasons : Option (List Season)
deriving DecidableEq, Repr

/-- Pydantic model `AnimeCreate`: the creation payload (no id, no
timestamp). -/
structure AnimeCreate where
  title : String
  alt_titles : List String
  type : String
  year : Option Int
  synopsis : Option String
  genres : List String
  poster_url : Option String
  movie_stream_links : Option (List StreamLink)
  seasons : Option (List Season)
deriving DecidableEq, Repr

/-- Pydantic model `AnimeUpdate` under `exclude_unset=True`: the outer
`Option` records whether the field was supplied at all; for fields that are
nullable in the document the inner `Option` is the supplied (possibly null)
value.  We model only type-preserving updates: the non-nullable document
fields (`title`, `alt_titles`, `type`, `genres`) carry a plain value when
supplied. -/
structure AnimeUpdate where
  title : Option String
  alt_titles : Option (List String)
  type : Option String
  year : Option (Option Int)
  synopsis : Option (Option String)
  genres : Option (List String)
  poster_url : Option (Option String)
  movie_stream_links : Option (Option (List StreamLink))
  seasons : Option (Option (List Season))
deriving DecidableEq, Repr

/-- Pydantic model `AddLinkPayload`: optional season/episode and the links
to append (`links : List[StreamLink]`, no non-emptiness constraint). -/
structure AddLinkPayload where
  season : Option Int
  episode : Option Int
  links : List StreamLink
deriving DecidableEq, Repr

/-- HTTP error outcomes raised by the handlers. -/
inductive ApiError where
  | invalidArgument (detail : String)
  | notFound (detail : String)
deriving DecidableEq, Repr

/-- The backend collection: `_id` strings paired with document bodies. -/
abbrev Store := List (String × Anime)

/-- `bson.ObjectId.is_valid` on a string: exactly 24 hexadecimal digits. -/
def isHexDigit (c : Char) : Bool :=
  c.isDigit || (('a' ≤ c) && (c ≤ 'f')) || (('A' ≤ c) && (c ≤ 'F'))

/-- `ObjectId.is_valid(id)` for a string id. -/
def isValidObjectId (s : String) : Bool :=
  s.length == 24 && s.data.all isHexDigit

/-- `find_one({"_id": ObjectId(id)})`: the first (only) document with the
given id. -/
def storeFind (store : Store) (id : String) : Option Anime :=
  (store.find? (fun kv => kv.1 == id)).map (·.2)

/-- Replace the body of the (at most one) document with the given id;
models a matched `update_one` write. -/
def storeSet : Store → String → Anime → Store
  | [], _, _ => []
  | kv :: rest, id, doc =>
    if kv.1 == id then (kv.1, doc) :: rest else kv :: storeSet rest id doc

/-- MongoDB `$push` with `$each`: append to the array, creating it when the
field is absent. -/
def pushLinks (sl : Option (List StreamLink)) (links : List StreamLink) :
    Option (List StreamLink) :=
  some (sl.getD [] ++ links)

/-- Result shape of the `/stream` route. -/
inductive StreamResult where
  | movie (links : List StreamLink)
  | series (season episode : Int) (links : List StreamLink)
deriving DecidableEq, Repr

/-- Python `episode or bolum` on two `Optional[int]`s: the first operand when
it is truthy (present and nonzero), otherwise the second. -/
def pyOr (a b : Option Int) : Option Int :=
  match a with
  | some n => if n ≠ 0 then some n else b
  | none => b

/-- The nested loop of `get_stream`: scan the seasons in order; inside each
season whose number matches, scan its episodes in order; return the first
episode whose number matches, continuing with later seasons otherwise. -/
def streamLoop (seasons : List Season) (seasonQ epQ : Int) : Option Episode :=
  match seasons with
  | [] => none
  | s :: rest =>
    if s.season == seasonQ then
      match (s.episodes.getD []).find? (fun ep => ep.number == epQ) with
      | some ep => some ep
      | none => streamLoop rest seasonQ epQ
    else streamLoop rest seasonQ epQ

/-- Route `GET /getdetails` (`get_details`): 400 on a malformed id, 404 when
no document matches, otherwise the document together with its id string
(`doc_to_json`). -/
def get_details (store : Store) (id : String) :
    Except ApiError (String × Anime) :=
  if ¬ isValidObjectId id then .error (.invalidArgument "Invalid id")
  else
    match storeFind store id with
    | none => .error (.notFound "Anime not found")
    | some doc => .ok (id, doc)

/-- Route `GET /stream` (`get_stream`). -/
def get_stream (store : Store) (id : String)
    (season bolum episode : Option Int) : Except ApiError StreamResult :=
  if ¬ isValidObjectId id then .error (.invalidArgument "Invalid id")
  else
    match storeFind store id with
    | none => .error (.notFound "Anime not found")
    | some doc =>
      if doc.type == "movie" then
        .ok (.movie (doc.movie_stream_links.getD []))
      else
        match season, pyOr episode bolum with
        | some sQ, some eQ =>
          match streamLoop (doc.seasons.getD []) sQ eQ with
          | some ep => .ok (.series sQ eQ (ep.stream_links.getD []))
          | none => .error (.notFound "Season/Episode not found")
        | _, _ =>
          .error (.invalidArgument "For series, season & episode required")

/-- Build the inserted document of `add_anime`: the payload's fields plus
`added_at = datetime.utcnow()`. -/
def animeOfCreate (p : AnimeCreate) (now : Nat) : Anime :=
  { title := p.title, alt_titles := p.alt_titles, type := p.type,
    year := p.year, synopsis := p.synopsis, genres := p.genres,
    poster_url := p.poster_url, added_at := now,
    movie_stream_links := p.movie_stream_links, seasons := p.seasons }

/-- Route `POST /addanime` (`add_anime`): insert the payload with the
current timestamp under a backend-assigned fresh id, re-read the saved
document and return it with its id string.  The backend-assigned `_id` and
the insertion time enter as the parameters `newId` and `now`. -/
def add_anime (store : Store) (payload : AnimeCreate) (now : Nat)
    (newId : String) : (Except ApiError (String × Anime)) × Store :=
  let doc := animeOfCreate payload now
  let store' := (newId, doc) :: store
  (.ok (newId, doc), store')

/-- Is the `exclude_unset` dict of an `AnimeUpdate` empty (no field
supplied)? -/
def AnimeUpdate.isEmpty (u : AnimeUpdate) : Bool :=
  u.title.isNone && u.alt_titles.isNone && u.type.isNone && u.year.isNone &&
  u.synopsis.isNone && u.genres.isNone && u.poster_url.isNone &&
  u.movie_stream_links.isNone && u.seasons.isNone

/-- MongoDB `{"$set": update_data}`: overwrite exactly the supplied
top-level fields. -/
def applyUpdate (a : Anime) (u : AnimeUpdate) : Anime :=
  { title := u.title.getD a.title,
    alt_titles := u.alt_titles.getD a.alt_titles,
    type := u.type.getD a.type,
    year := u.year.getD a.year,
    synopsis := u.synopsis.getD a.synopsis,
    genres := u.genres.getD a.genres,
    poster_url := u.poster_url.getD a.poster_url,
    added_at := a.added_at,
    movie_stream_links := u.movie_stream_links.getD a.movie_stream_links,
    seasons := u.seasons.getD a.seasons }

/-- Route `PATCH /editanime/{id}` (`edit_anime`): 400 on a malformed id,
400 when no field is supplied, 404 when no document matches, otherwise
`$set` the supplied fields and return the re-read document. -/
def edit_anime (store : Store) (id : String) (payload : AnimeUpdate) :
    (Except ApiError (String × Anime)) × Store :=
  if ¬ isValidObjectId id then (.error (.invalidArgument "Invalid id"), store)
  else if payload.isEmpty then
    (.error (.invalidArgument "No fields to update"), store)
  else
    match storeFind store id with
    | none => (.error (.notFound "Anime not found"), store)
    | some doc =>
      let doc' := applyUpdate doc payload
      (.ok (id, doc'), storeSet store id doc')

/-- The filter of the series-case `update_one` in `add_link`:
`{"seasons.season": season, "seasons.episodes.number": episode}`.
MongoDB satisfies each dotted clause independently: some season element has
the requested season number, and some (possibly different) season element
has an episode with the requested episode number. -/
def addLinkFilterMatches (doc : Anime) (seasonQ epQ : Int) : Bool :=
  (doc.seasons.getD []).any (fun s => s.season == seasonQ) &&
  (doc.seasons.getD []).any
    (fun s => (s.episodes.getD []).any (fun ep => ep.number == epQ))

/-- Effect of `$push {"seasons.$[].episodes.$[ep].stream_links": ...}` with
`array_filters=[{"ep.number": episode}]` on one episode: the positional
filter `$[ep]` selects every episode whose number matches. -/
def pushEpisode (epQ : Int) (links : List StreamLink) (ep : Episode) :
    Episode :=
  if ep.number == epQ then
    { ep with stream_links := pushLinks ep.stream_links links }
  else ep

/-- Effect of the same update on one season: `$[]` selects EVERY season
element, not only the one whose number matched the filter. -/
def pushSeason (epQ : Int) (links : List StreamLink) (s : Season) : Season :=
  { s with episodes := s.episodes.map (List.map (pushEpisode epQ links)) }

/-- Route `PATCH /addlink/{id}` (`add_link`): 400 on a malformed id, 404
when the document is absent; movie documents get the links `$push`ed onto
`movie_stream_links`; series documents require season and episode, and the
update applies exactly when its filter matches, pushing onto every
matching-numbered episode of every season; the re-read document is
returned. -/
def add_link (store : Store) (id : String) (payload : AddLinkPayload) :
    (Except ApiError (String × Anime)) × Store :=
  if ¬ isValidObjectId id then (.error (.invalidArgument "Invalid id"), store)
  else
    match storeFind store id with
    | none => (.error (.notFound "Anime not found"), store)
    | some doc =>
      if doc.type == "movie" then
        let doc' := { doc with
          movie_stream_links := pushLinks doc.movie_stream_links payload.links }
        (.ok (id, doc'), storeSet store id doc')
      else
        match payload.season, payload.episode with
        | some sQ, some eQ =>
          let doc' :=
            if addLinkFilterMatches doc sQ eQ then
              { doc with
                seasons := doc.seasons.map
                  (List.map (pushSeason eQ payload.links)) }
            else doc
          (.ok (id, doc'), storeSet store id doc')
        | _, _ =>
          (.error (.invalidArgument "Season & episode required for series"),
           store)

/-- Dependency `pagination`: `limit` defaults to 24 and must lie in
`[1, 100]`, `skip` defaults to 0 and must be nonnegative; out-of-range
values are rejected by FastAPI's query validation. -/
def pagination (limit skip : Option Int) : Option (Int × Int) :=
  let l := limit.getD 24
  let s := skip.getD 0
  if 1 ≤ l ∧ l ≤ 100 ∧ 0 ≤ s then some (l, s) else none

/-- `sort("added_at", -1)`: most recent first. -/
def sortByAddedAtDesc (docs : List Anime) : List Anime :=
  docs.mergeSort (fun a b => b.added_at ≤ a.added_at)

/-- Shared body of the listing routes: filter, sort by creation time
descending, skip, limit. -/
def listDocs (store : Store) (filt : Anime → Bool) (limit skip : Int) :
    List Anime :=
  (((sortByAddedAtDesc ((store.map (·.2)).filter filt)).drop skip.toNat).take
    limit.toNat)

/-- Route `GET /movies` (`get_movies`). -/
def get_movies (store : Store) (limit skip : Int) : List Anime :=
  listDocs store (fun a => a.type == "movie") limit skip

/-- Route `GET /series` (`get_series`). -/
def get_series (store : Store) (limit skip : Int) : List Anime :=
  listDocs store (fun a => a.type == "series") limit skip

/-- Route `GET /latest` (`get_latest`). -/
def get_latest (store : Store) (limit skip : Int) : List Anime :=
  listDocs store (fun _ => true) limit skip

/-! ### Fixtures and helper lemmas -/

/-- A well-formed ObjectId string (24 hex digits). -/
def oid1 : String := "0123456789abcdef01234567"

/-- A concrete stored movie document. -/
def movieDoc : Anime :=
  { title := "M", alt_titles := [], type := "movie", year := none,
    synopsis := none, genres := [], poster_url := none, added_at := 5,
    movie_stream_links := some [⟨"1080p", "https://cdn/1"⟩], seasons := none }

/-- An `AnimeUpdate` with no field supplied. -/
def emptyUpdate : AnimeUpdate :=
  ⟨none, none, none, none, none, none, none, none, none⟩

/-! ### Claims -/

/-- C3: for every malformed id, each of the four id-taking operations
(`get_details`, `get_stream`, `edit_anime`, `add_link`) returns
InvalidArgument (HTTP 400) — in particular never NotFound — and the two
mutations leave the store unchanged. -/
theorem malformed_id_rejected (id : String)
    (h : isValidObjectId id = false) :
    (∀ store : Store,
      get_details store id = .error (.invalidArgument "Invalid id")) ∧
    (∀ (store : Store) (season bolum episode : Option Int),
      get_stream store id season bolum episode =
        .error (.invalidArgument "Invalid id")) ∧
    (∀ (store : Store) (u : AnimeUpdate),
      edit_anime store id u =
        (.error (.invalidArgument "Invalid id"), store)) ∧
    (∀ (store : Store) (p : AddLinkPayload),
      add_link store id p =
        (.error (.invalidArgument "Invalid id"), store)) := by
  refine ⟨fun store => ?_, fun store season bolum episode => ?_,
    fun store u => ?_, fun store p => ?_⟩ <;>
    simp [get_details, get_stream, edit_anime, add_link, h]

/-- Witness for C3 at the malformed id `"xyz"`. -/
theorem malformed_id_rejected_witness :
    isValidObjectId "xyz" = false ∧
    get_details [(oid1, movieDoc)] "xyz" =
      .error (.invalidArgument "Invalid id") ∧
    edit_anime [(oid1, movieDoc)] "xyz" emptyUpdate =
      (.error (.invalidArgument "Invalid id"), [(oid1, movieDoc)]) :=
  ⟨by rfl,
   (malformed_id_rejected "xyz" (by rfl)).1 [(oid1, movieDoc)],
   (malformed_id_rejected "xyz" (by rfl)).2.2.1 [(oid1, movieDoc)] emptyUpdate⟩

/-- C4: for a stored movie document, `/stream` returns its
`movie_stream_links` (defaulting to the empty list when the field is
absent) whatever the season/bolum/episode query parameters are, and in
particular never fails for missing season/episode. -/
theorem movie_stream_ignores_params (store : Store) (id : String)
    (doc : Anime) (hid : isValidObjectId id = true)
    (hdoc : storeFind store id = some doc) (hty : doc.type = "movie") :
    ∀ season bolum episode : Option Int,
      get_stream store id season bolum episode =
        .ok (.movie (doc.movie_stream_links.getD [])) := by
  intro season bolum episode
  simp [get_stream, hid, hdoc, hty]

/-- Witness for C4: the movie fixture with arbitrary season/episode
parameters supplied. -/
theorem movie_stream_ignores_params_witness :
    get_stream [(oid1, movieDoc)] oid1 (some 3) (some 4) (some 0) =
      .ok (.movie [⟨"1080p", "https://cdn/1"⟩]) :=
  movie_stream_ignores_params [(oid1, movieDoc)] oid1 movieDoc (by rfl)
    (by rfl) (by rfl) (some 3) (some 4) (some 0)

/-- C10: in the series branch of `/stream` the effective episode number is
`episode or bolum` under Python truthiness: a nonzero `episode` silences
`bolum`; `episode = 0` falls back to `bolum`; and `episode = 0` with no
`bolum` counts as a missing episode, yielding InvalidArgument (400). -/
theorem effective_episode_pyOr (store : Store) (id : String) (doc : Anime)
    (hid : isValidObjectId id = true) (hdoc : storeFind store id = some doc)
    (hty : doc.type = "series") :
    (∀ (season : Option Int) (b e : Int), e ≠ 0 →
      get_stream store id season (some b) (some e) =
        get_stream store id season none (some e)) ∧
    (∀ season b : Option Int,
      get_stream store id season b (some 0) =
        get_stream store id season b none) ∧
    (∀ sQ : Int, get_stream store id (some sQ) none (some 0) =
      .error (.invalidArgument "For series, season & episode required")) := by
  refine ⟨fun season b e he => ?_, fun season b => ?_, fun sQ => ?_⟩ <;>
    simp [get_stream, hid, hdoc, hty, pyOr, *]

/-- A link appended by the mutation fixtures. -/
def linkNew : StreamLink := ⟨"720p", "https://x/new"⟩

/-- A pre-existing link of the twin-season fixture. -/
def oldLink : StreamLink := ⟨"480p", "https://cdn/old"⟩

/-- Series document with episode 5 only in season 1 and episode 1 only in
season 2. -/
def seriesCross : Anime :=
  { title := "S", alt_titles := [], type := "series", year := none,
    synopsis := none, genres := [], poster_url := none, added_at := 1,
    movie_stream_links := none,
    seasons := some
      [⟨1, some [⟨5, none, some []⟩]⟩,
       ⟨2, some [⟨1, none, some []⟩]⟩] }

/-- `seriesCross` after the cross-matched update pushed `linkNew` onto
season 1's episode 5. -/
def seriesCrossPushed : Anime :=
  { title := "S", alt_titles := [], type := "series", year := none,
    synopsis := none, genres := [], poster_url := none, added_at := 1,
    movie_stream_links := none,
    seasons := some
      [⟨1, some [⟨5, none, some [linkNew]⟩]⟩,
       ⟨2, some [⟨1, none, some []⟩]⟩] }

/-- Writing back the document that `storeFind` already returns leaves the
store unchanged (a failed update filter writes nothing). -/
theorem storeSet_self (store : Store) (id : String) (doc : Anime)
    (h : storeFind store id = some doc) : storeSet store id doc = store := by
  induction store with
  | nil => simp [storeFind] at h
  | cons kv rest ih =>
    by_cases hkv : kv.1 == id
    · have h2 : kv.2 = doc := by
        rw [storeFind,
          @List.find?_cons_of_pos _ (fun kv => kv.1 == id) kv rest hkv] at h
        simpa using h
      subst h2
      simp [storeSet, hkv]
    · have h2 : storeFind rest id = some doc := by
        rw [storeFind,
          @List.find?_cons_of_neg _ (fun kv => kv.1 == id) kv rest hkv] at h
        exact h
      simp [storeSet, hkv, ih h2]

/-- C2 counterexample: the pair (season 2, episode 5) matches no
season/episode combination of `seriesCross`, yet the update's filter —
whose two dotted clauses are satisfied by different seasons — matches, and
the links are pushed onto season 1's episode 5: the record is modified, so
the operation is not a no-op. -/
theorem addlink_cross_match_mutates :
    add_link [(oid1, seriesCross)] oid1 ⟨some 2, some 5, [linkNew]⟩ =
      (.ok (oid1, seriesCrossPushed), [(oid1, seriesCrossPushed)]) ∧
    seriesCrossPushed ≠ seriesCross := by
  exact ⟨by rfl, by decide⟩

/-- C2 (amended): when both season and episode are supplied but the
update's filter does not match — no season carries the requested season
number, or no season contains an episode with the requested episode
number — `add_link` on a series document is a silent no-op: it returns the
unmodified record with success and never signals NotFound. -/
theorem addlink_filter_nomatch_noop (store : Store) (id : String)
    (doc : Anime) (p : AddLinkPayload) (sQ eQ : Int)
    (hid : isValidObjectId id = true) (hdoc : storeFind store id = some doc)
    (hty : doc.type = "series") (hs : p.season = some sQ)
    (he : p.episode = some eQ)
    (hnomatch : addLinkFilterMatches doc sQ eQ = false) :
    add_link store id p = (.ok (id, doc), store) := by
  have hset := storeSet_self store id doc hdoc
  simp [add_link, hid, hdoc, hty, hs, he, hnomatch, hset]

/-- Witness for the amended C2: requesting season 3 / episode 9 on
`seriesCross` (no season 3 exists) returns the unmodified record. -/
theorem addlink_filter_nomatch_noop_witness :
    add_link [(oid1, seriesCross)] oid1 ⟨some 3, some 9, [linkNew]⟩ =
      (.ok (oid1, seriesCross), [(oid1, seriesCross)]) :=
  addlink_filter_nomatch_noop [(oid1, seriesCross)] oid1 seriesCross
    ⟨some 3, some 9, [linkNew]⟩ 3 9 (by rfl) (by rfl) (by rfl) (by rfl)
    (by rfl) (by rfl)

/-- Series document where both seasons contain an episode numbered 1;
season 1's episode 1 already holds `oldLink`. -/
def seriesTwin : Anime :=
  { title := "T", alt_titles := [], type := "series", year := none,
    synopsis := none, genres := [], poster_url := none, added_at := 2,
    movie_stream_links := none,
    seasons := some
      [⟨1, some [⟨1, none, some [oldLink]⟩]⟩,
       ⟨2, some [⟨1, none, some []⟩]⟩] }

/-- `seriesTwin` after `add_link` with (season 1, episode 1): the `$[]`
positional operator visits every season, so both episodes numbered 1
receive the new link. -/
def seriesTwinPushed : Anime :=
  { title := "T", alt_titles := [], type := "series", year := none,
    synopsis := none, genres := [], poster_url := none, added_at := 2,
    movie_stream_links := none,
    seasons := some
      [⟨1, some [⟨1, none, some [oldLink, linkNew]⟩]⟩,
       ⟨2, some [⟨1, none, some [linkNew]⟩]⟩] }

/-- C1 (code bug, evaluated at the failing input): the request
(season 1, episode 1) targets season 1's existing episode 1, yet the
handler — documented as "Find and update specific episode" — also appends
the link to season 2's episode 1, because `seasons.$[]` selects every
season and the array filter constrains only the episode number; the second
conjunct records that the result differs from the claimed frame condition
(season 2 untouched). -/
theorem addlink_pushes_all_matching_episodes :
    add_link [(oid1, seriesTwin)] oid1 ⟨some 1, some 1, [linkNew]⟩ =
      (.ok (oid1, seriesTwinPushed), [(oid1, seriesTwinPushed)]) ∧
    seriesTwinPushed.seasons ≠
      some [⟨1, some [⟨1, none, some [oldLink, linkNew]⟩]⟩,
            ⟨2, some [⟨1, none, some []⟩]⟩] := by
  exact ⟨by rfl, by decide⟩

/-- C7 counterexample: a request whose `links` list is empty is accepted —
`AddLinkPayload` places no non-emptiness constraint on `links` and the
handler processes the request, returning the record with success. -/
theorem addlink_accepts_empty_links :
    add_link [(oid1, movieDoc)] oid1 ⟨none, none, []⟩ =
      (.ok (oid1, movieDoc), [(oid1, movieDoc)]) := by rfl

/-- C7 (amended): the add-link operation accepts payloads with any `links`
list, the empty list included: on a stored movie document with a
well-formed id, a request with an empty links list succeeds and leaves the
link list's elements unchanged. -/
theorem addlink_empty_links_ok (store : Store) (id : String) (doc : Anime)
    (hid : isValidObjectId id = true) (hdoc : storeFind store id = some doc)
    (hty : doc.type = "movie") :
    add_link store id ⟨none, none, []⟩ =
      (.ok (id, { doc with
          movie_stream_links := some (doc.movie_stream_links.getD []) }),
       storeSet store id { doc with
          movie_stream_links := some (doc.movie_stream_links.getD []) }) := by
  simp [add_link, hid, hdoc, hty, pushLinks]

/-- Witness for the amended C7 on the movie fixture. -/
theorem addlink_empty_links_ok_witness :
    add_link [(oid1, movieDoc)] oid1 ⟨none, none, []⟩ =
      (.ok (oid1, { movieDoc with
          movie_stream_links :=
            some (movieDoc.movie_stream_links.getD []) }),
       storeSet [(oid1, movieDoc)] oid1 { movieDoc with
          movie_stream_links :=
            some (movieDoc.movie_stream_links.getD []) }) :=
  addlink_empty_links_ok [(oid1, movieDoc)] oid1 movieDoc (by rfl) (by rfl)
    (by rfl)

/-- After overwriting the document with the given id, lookup by that id
returns the new body (provided a document with the id was stored). -/
theorem storeFind_storeSet_self (store : Store) (id : String)
    (doc d : Anime) (h : storeFind store id = some doc) :
    storeFind (storeSet store id d) id = some d := by
  induction store with
  | nil => simp [storeFind] at h
  | cons kv rest ih =>
    by_cases hkv : kv.1 == id
    · simp [storeSet, hkv, storeFind,
        @List.find?_cons_of_pos _ (fun kv => kv.1 == id) _ rest hkv]
    · have h2 : storeFind rest id = some doc := by
        rw [storeFind,
          @List.find?_cons_of_neg _ (fun kv => kv.1 == id) kv rest hkv] at h
        exact h
      rw [storeSet, if_neg hkv, storeFind,
        @List.find?_cons_of_neg _ (fun kv => kv.1 == id) kv _ hkv]
      exact ih h2

/-- Overwriting the document with one id leaves lookups of every other id
unchanged. -/
theorem storeFind_storeSet_ne (store : Store) (id k : String) (d : Anime)
    (h : k ≠ id) : storeFind (storeSet store id d) k = storeFind store k := by
  induction store with
  | nil => simp [storeSet]
  | cons kv rest ih =>
    by_cases hkv : kv.1 == id
    · have hk : (kv.1 == k) = false := by
        have heq : kv.1 = id := eq_of_beq hkv
        rw [heq]
        exact beq_eq_false_iff_ne.mpr (fun hc => h hc.symm)
      rw [storeSet, if_pos hkv, storeFind,
        @List.find?_cons_of_neg _ (fun kv => kv.1 == k) (kv.1, d) rest
          (by simp [hk]),
        storeFind,
        @List.find?_cons_of_neg _ (fun kv => kv.1 == k) kv rest
          (by simp [hk])]
    · rw [storeSet, if_neg hkv]
      by_cases hk : kv.1 == k
      · rw [storeFind,
          @List.find?_cons_of_pos _ (fun kv => kv.1 == k) kv _ hk,
          storeFind,
          @List.find?_cons_of_pos _ (fun kv => kv.1 == k) kv rest hk]
      · rw [storeFind,
          @List.find?_cons_of_neg _ (fun kv => kv.1 == k) kv _ hk,
          storeFind,
          @List.find?_cons_of_neg _ (fun kv => kv.1 == k) kv rest hk]
        exact ih

/-- C9: `add_anime` returns the inserted record under the backend-assigned
id, the id string is non-empty, the creation timestamp equals the insertion
time, and a subsequent `get_details` with that id succeeds and returns the
same record (create/fetch round-trip). -/
theorem create_fetch_roundtrip (store : Store) (payload : AnimeCreate)
    (now : Nat) (newId : String) (hid : isValidObjectId newId = true) :
    (add_anime store payload now newId).1 =
      .ok (newId, animeOfCreate payload now) ∧
    newId ≠ "" ∧
    (animeOfCreate payload now).added_at = now ∧
    get_details (add_anime store payload now newId).2 newId =
      .ok (newId, animeOfCreate payload now) := by
  refine ⟨rfl, ?_, rfl, ?_⟩
  · intro hempty
    subst hempty
    exact absurd hid (by decide)
  · simp [get_details, add_anime, storeFind, hid]

/-- A concrete creation payload. -/
def createPayload : AnimeCreate :=
  { title := "Test", alt_titles := [], type := "movie", year := none,
    synopsis := none, genres := [], poster_url := none,
    movie_stream_links := some [], seasons := none }

/-- Witness for C9 on an empty store. -/
theorem create_fetch_roundtrip_witness :
    (add_anime [] createPayload 7 oid1).1 =
      .ok (oid1, animeOfCreate createPayload 7) ∧
    get_details (add_anime [] createPayload 7 oid1).2 oid1 =
      .ok (oid1, animeOfCreate createPayload 7) :=
  ⟨(create_fetch_roundtrip [] createPayload 7 oid1 (by rfl)).1,
   (create_fetch_roundtrip [] createPayload 7 oid1 (by rfl)).2.2.2⟩

/-- Spec-side description of the partial update: every supplied top-level
field is overwritten with the supplied value, every non-supplied field is
unchanged, and the creation timestamp (never suppliable) is kept. -/
def OverwritesExactly (doc : Anime) (u : AnimeUpdate) (d : Anime) : Prop :=
  (∀ v, u.title = some v → d.title = v) ∧
  (u.title = none → d.title = doc.title) ∧
  (∀ v, u.alt_titles = some v → d.alt_titles = v) ∧
  (u.alt_titles = none → d.alt_titles = doc.alt_titles) ∧
  (∀ v, u.type = some v → d.type = v) ∧
  (u.type = none → d.type = doc.type) ∧
  (∀ v, u.year = some v → d.year = v) ∧
  (u.year = none → d.year = doc.year) ∧
  (∀ v, u.synopsis = some v → d.synopsis = v) ∧
  (u.synopsis = none → d.synopsis = doc.synopsis) ∧
  (∀ v, u.genres = some v → d.genres = v) ∧
  (u.genres = none → d.genres = doc.genres) ∧
  (∀ v, u.poster_url = some v → d.poster_url = v) ∧
  (u.poster_url = none → d.poster_url = doc.poster_url) ∧
  (∀ v, u.movie_stream_links = some v → d.movie_stream_links = v) ∧
  (u.movie_stream_links = none →
    d.movie_stream_links = doc.movie_stream_links) ∧
  (∀ v, u.seasons = some v → d.seasons = v) ∧
  (u.seasons = none → d.seasons = doc.seasons) ∧
  d.added_at = doc.added_at

/-- The `$set` of the supplied fields satisfies the spec-side description
of a partial update. -/
theorem applyUpdate_overwrites (doc : Anime) (u : AnimeUpdate) :
    OverwritesExactly doc u (applyUpdate doc u) := by
  unfold OverwritesExactly applyUpdate
  refine ⟨?_, ?_, ?_, ?_, ?_, ?_, ?_, ?_, ?_, ?_, ?_, ?_, ?_, ?_, ?_, ?_,
    ?_, ?_, rfl⟩ <;>
  · first
    | (intro v hv; simp [hv])
    | (intro hv; simp [hv])

/-- C6: for a well-formed id, `edit_anime` rejects an empty update body
with InvalidArgument, fails NotFound when no record matches, and otherwise
overwrites exactly the supplied top-level fields (whole-field replace),
leaves non-supplied fields and the creation timestamp unchanged, returns
the updated record, stores it under the same id, and leaves every other
stored record untouched. -/
theorem edit_anime_spec (store : Store) (id : String) (u : AnimeUpdate)
    (hid : isValidObjectId id = true) :
    (u.isEmpty = true →
      edit_anime store id u =
        (.error (.invalidArgument "No fields to update"), store)) ∧
    (u.isEmpty = false → storeFind store id = none →
      edit_anime store id u =
        (.error (.notFound "Anime not found"), store)) ∧
    (∀ doc, u.isEmpty = false → storeFind store id = some doc →
      (edit_anime store id u).1 = .ok (id, applyUpdate doc u) ∧
      OverwritesExactly doc u (applyUpdate doc u) ∧
      storeFind (edit_anime store id u).2 id = some (applyUpdate doc u) ∧
      (∀ k, k ≠ id →
        storeFind (edit_anime store id u).2 k = storeFind store k)) := by
  refine ⟨fun hemp => ?_, fun hemp hnone => ?_, fun doc hemp hdoc => ?_⟩
  · simp [edit_anime, hid, hemp]
  · simp [edit_anime, hid, hemp, hnone]
  · have hstep : edit_anime store id u =
        (.ok (id, applyUpdate doc u), storeSet store id (applyUpdate doc u)) := by
      simp [edit_anime, hid, hemp, hdoc]
    refine ⟨by rw [hstep], applyUpdate_overwrites doc u, ?_, fun k hk => ?_⟩
    · rw [hstep]
      exact storeFind_storeSet_self store id doc _ hdoc
    · rw [hstep]
      exact storeFind_storeSet_ne store id k _ hk

/-- An update supplying only the synopsis. -/
def synopsisUpdate : AnimeUpdate :=
  ⟨none, none, none, none, some (some "story"), none, none, none, none⟩

/-- Witness for C6: editing only the synopsis of the movie fixture. -/
theorem edit_anime_spec_witness :
    (edit_anime [(oid1, movieDoc)] oid1 synopsisUpdate).1 =
      .ok (oid1, applyUpdate movieDoc synopsisUpdate) :=
  ((edit_anime_spec [(oid1, movieDoc)] oid1 synopsisUpdate (by rfl)).2.2
    movieDoc (by rfl) (by rfl)).1

/-- Witness for C10 on the cross fixture: episode 0 with no bolum counts
as missing (400), and a nonzero episode takes precedence over bolum. -/
theorem effective_episode_pyOr_witness :
    get_stream [(oid1, seriesCross)] oid1 (some 1) none (some 0) =
      .error (.invalidArgument "For series, season & episode required") ∧
    get_stream [(oid1, seriesCross)] oid1 (some 1) (some 9) (some 5) =
      get_stream [(oid1, seriesCross)] oid1 (some 1) none (some 5) :=
  ⟨(effective_episode_pyOr [(oid1, seriesCross)] oid1 seriesCross (by rfl)
      (by rfl) (by rfl)).2.2 1,
   (effective_episode_pyOr [(oid1, seriesCross)] oid1 seriesCross (by rfl)
      (by rfl) (by rfl)).1 (some 1) 9 5 (by decide)⟩

/-- All (season, episode) pairs of a seasons list, in the scan order of the
`get_stream` loop. -/
def seasonEpisodePairs (seasons : List Season) : List (Season × Episode) :=
  seasons.flatMap (fun s => (s.episodes.getD []).map (fun ep => (s, ep)))

/-- Spec-side linear scan: the first (season, episode) pair in list order
whose numbers both match the request. -/
def firstMatchingPair (seasons : List Season) (sQ eQ : Int) :
    Option (Season × Episode) :=
  (seasonEpisodePairs seasons).find?
    (fun p => p.1.season == sQ && p.2.number == eQ)

/-- The nested loop of `get_stream` computes exactly the episode of the
first matching (season, episode) pair in list order. -/
theorem streamLoop_eq_firstMatchingPair (seasons : List Season)
    (sQ eQ : Int) :
    streamLoop seasons sQ eQ =
      (firstMatchingPair seasons sQ eQ).map (·.2) := by
  induction seasons with
  | nil => rfl
  | cons s rest ih =>
    rw [firstMatchingPair, seasonEpisodePairs] at ih ⊢
    rw [List.flatMap_cons, List.find?_append, List.find?_map]
    by_cases hs : (s.season == sQ) = true
    · rw [streamLoop, if_pos hs]
      have hpred : ((fun p : Season × Episode =>
            p.1.season == sQ && p.2.number == eQ) ∘ (fun ep => (s, ep))) =
          fun ep => ep.number == eQ := by
        funext ep
        simp [Function.comp, hs]
      rw [hpred]
      cases hfind : (s.episodes.getD []).find? (fun ep => ep.number == eQ) with
      | some ep => rfl
      | none =>
        simp only [Option.map_none', Option.none_or]
        exact ih
    · rw [streamLoop, if_neg hs]
      have hs' : (s.season == sQ) = false := by
        cases hb : s.season == sQ with
        | true => exact absurd hb hs
        | false => rfl
      have hpred : ((fun p : Season × Episode =>
            p.1.season == sQ && p.2.number == eQ) ∘ (fun ep => (s, ep))) =
          fun _ => false := by
        funext ep
        simp [Function.comp, hs']
      rw [hpred]
      have hnone : (s.episodes.getD []).find? (fun _ : Episode => false) =
          none :=
        List.find?_eq_none.mpr (fun x _ => by simp)
      rw [hnone]
      simp only [Option.map_none', Option.none_or]
      exact ih

/-- The linear scan finds no pair exactly when no season with the requested
number contains an episode with the requested number. -/
theorem firstMatchingPair_eq_none_iff (seasons : List Season) (sQ eQ : Int) :
    firstMatchingPair seasons sQ eQ = none ↔
      ¬ ∃ s ∈ seasons, s.season = sQ ∧
          ∃ ep ∈ s.episodes.getD [], ep.number = eQ := by
  rw [firstMatchingPair, List.find?_eq_none]
  constructor
  · rintro h ⟨s, hs, hsq, ep, hep, heq⟩
    refine h (s, ep) ?_ (by simp [hsq, heq])
    rw [seasonEpisodePairs]
    exact List.mem_flatMap.mpr ⟨s, hs, List.mem_map.mpr ⟨ep, hep, rfl⟩⟩
  · rintro h ⟨s, ep⟩ hmem hpred
    rw [seasonEpisodePairs, List.mem_flatMap] at hmem
    obtain ⟨s', hs', hmm⟩ := hmem
    rw [List.mem_map] at hmm
    obtain ⟨ep', hep', heq⟩ := hmm
    cases heq
    simp only [Bool.and_eq_true, beq_iff_eq] at hpred
    exact h ⟨_, hs', hpred.1, _, hep', hpred.2⟩

/-- C5: for a stored series document, `/stream` rejects a missing season or
a missing effective episode number with InvalidArgument (400); given both,
it returns the stream-link list of the episode of the FIRST
(season, episode) pair, in linear scan order, whose numbers match the
request, and yields NotFound (404) exactly when no season with the
requested number contains an episode with the requested number. -/
theorem series_stream_resolution (store : Store) (id : String) (doc : Anime)
    (hid : isValidObjectId id = true) (hdoc : storeFind store id = some doc)
    (hty : doc.type = "series") :
    (∀ bolum episode : Option Int, get_stream store id none bolum episode =
      .error (.invalidArgument "For series, season & episode required")) ∧
    (∀ season bolum episode : Option Int, pyOr episode bolum = none →
      get_stream store id season bolum episode =
        .error (.invalidArgument "For series, season & episode required")) ∧
    (∀ (sQ : Int) (bolum episode : Option Int) (eQ : Int),
      pyOr episode bolum = some eQ →
      get_stream store id (some sQ) bolum episode =
        (match firstMatchingPair (doc.seasons.getD []) sQ eQ with
         | some p => .ok (.series sQ eQ (p.2.stream_links.getD []))
         | none => .error (.notFound "Season/Episode not found"))) ∧
    (∀ (sQ : Int) (bolum episode : Option Int) (eQ : Int),
      pyOr episode bolum = some eQ →
      (get_stream store id (some sQ) bolum episode =
          .error (.notFound "Season/Episode not found") ↔
        ¬ ∃ s ∈ doc.seasons.getD [], s.season = sQ ∧
            ∃ ep ∈ s.episodes.getD [], ep.number = eQ)) := by
  have key : ∀ (sQ : Int) (bolum episode : Option Int) (eQ : Int),
      pyOr episode bolum = some eQ →
      get_stream store id (some sQ) bolum episode =
        (match firstMatchingPair (doc.seasons.getD []) sQ eQ with
         | some p => .ok (.series sQ eQ (p.2.stream_links.getD []))
         | none => .error (.notFound "Season/Episode not found")) := by
    intro sQ bolum episode eQ hpy
    have hstep : get_stream store id (some sQ) bolum episode =
        (match streamLoop (doc.seasons.getD []) sQ eQ with
         | some ep => .ok (.series sQ eQ (ep.stream_links.getD []))
         | none => .error (.notFound "Season/Episode not found")) := by
      simp [get_stream, hid, hdoc, hty, hpy]
    rw [hstep, streamLoop_eq_firstMatchingPair]
    cases firstMatchingPair (doc.seasons.getD []) sQ eQ <;> rfl
  refine ⟨fun bolum episode => ?_, fun season bolum episode hpy => ?_,
    key, fun sQ bolum episode eQ hpy => ?_⟩
  · cases hpy : pyOr episode bolum <;>
      simp [get_stream, hid, hdoc, hty, hpy]
  · cases season <;> simp [get_stream, hid, hdoc, hty, hpy]
  · rw [key sQ bolum episode eQ hpy,
      ← firstMatchingPair_eq_none_iff (doc.seasons.getD []) sQ eQ]
    cases hfmp : firstMatchingPair (doc.seasons.getD []) sQ eQ with
    | some p => simp
    | none => simp

/-- Series fixture matching the spec's example: season 1 holds episode 2
with a single 720p link. -/
def seriesOne : Anime :=
  { title := "E", alt_titles := [], type := "series", year := none,
    synopsis := none, genres := [], poster_url := none, added_at := 3,
    movie_stream_links := none,
    seasons := some [⟨1, some [⟨2, none, some [⟨"720p", "https://x/a"⟩]⟩]⟩] }

/-- Witness for C5: requesting (season 1, episode 2) returns exactly the
episode's link list; requesting (season 1, episode 99) yields NotFound. -/
theorem series_stream_resolution_witness :
    get_stream [(oid1, seriesOne)] oid1 (some 1) none (some 2) =
      .ok (.series 1 2 [⟨"720p", "https://x/a"⟩]) ∧
    get_stream [(oid1, seriesOne)] oid1 (some 1) none (some 99) =
      .error (.notFound "Season/Episode not found") := by
  constructor
  · have h := (series_stream_resolution [(oid1, seriesOne)] oid1 seriesOne
      (by rfl) (by rfl) (by rfl)).2.2.1 1 none (some 2) 2 (by decide)
    rw [h]
    rfl
  · have h := (series_stream_resolution [(oid1, seriesOne)] oid1 seriesOne
      (by rfl) (by rfl) (by rfl)).2.2.1 1 none (some 99) 99 (by decide)
    rw [h]
    rfl

/-- `out` is the skip/limit window of a descending-by-`added_at` sorting of
`docs`. -/
def ListingWindow (docs out : List Anime) (limit skip : Int) : Prop :=
  ∃ sorted : List Anime, sorted.Perm docs ∧
    List.Pairwise (fun a b => b.added_at ≤ a.added_at) sorted ∧
    out = (sorted.drop skip.toNat).take limit.toNat

/-- The backend sort returns a permutation of its input. -/
theorem sortByAddedAtDesc_perm (docs : List Anime) :
    (sortByAddedAtDesc docs).Perm docs :=
  List.mergeSort_perm docs _

/-- The backend sort orders documents by creation time, most recent
first. -/
theorem sortByAddedAtDesc_sorted (docs : List Anime) :
    List.Pairwise (fun a b => b.added_at ≤ a.added_at)
      (sortByAddedAtDesc docs) := by
  have h : List.Pairwise
      (fun a b : Anime => (decide (b.added_at ≤ a.added_at)) = true)
      (docs.mergeSort (fun a b => decide (b.added_at ≤ a.added_at))) :=
    List.sorted_mergeSort
      (fun a b c hab hbc => by
        simp only [decide_eq_true_eq] at *
        exact Nat.le_trans hbc hab)
      (fun a b => by
        simp only [Bool.or_eq_true, decide_eq_true_eq]
        exact Nat.le_total b.added_at a.added_at)
      docs
  exact h.imp (fun hab => of_decide_eq_true hab)

/-- Every listing is the skip/limit window of a sorted permutation of the
filtered store. -/
theorem listDocs_window (store : Store) (f : Anime → Bool) (l s : Int) :
    ListingWindow ((store.map (·.2)).filter f) (listDocs store f l s) l s := by
  exact ⟨_, sortByAddedAtDesc_perm _, sortByAddedAtDesc_sorted _, rfl⟩

/-- Each returned document passes the listing's filter. -/
theorem listDocs_mem (store : Store) (f : Anime → Bool) (l s : Int)
    (a : Anime) (ha : a ∈ listDocs store f l s) : f a = true := by
  have hsub : (listDocs store f l s).Sublist
      (sortByAddedAtDesc ((store.map (·.2)).filter f)) :=
    (List.take_sublist _ _).trans (List.drop_sublist _ _)
  have hmem : a ∈ (store.map (·.2)).filter f :=
    (sortByAddedAtDesc_perm _).mem_iff.mp (hsub.subset ha)
  exact (List.mem_filter.mp hmem).2

/-- Each listing's output is ordered by creation time descending. -/
theorem listDocs_sorted (store : Store) (f : Anime → Bool) (l s : Int) :
    List.Pairwise (fun a b => b.added_at ≤ a.added_at)
      (listDocs store f l s) :=
  List.Pairwise.sublist
    ((List.take_sublist _ _).trans (List.drop_sublist _ _))
    (sortByAddedAtDesc_sorted _)

/-- C8: the movies listing returns only movie records and the series
listing only series records, while the latest listing applies no type
filter; each listing is the skip/limit window of a permutation of the
(filtered) store sorted by creation time descending; and the pagination
dependency defaults the limit to 24 and accepts exactly limits in
[1, 100] with nonnegative skips. -/
theorem listings_spec :
    pagination none none = some (24, 0) ∧
    (∀ l s : Int,
      pagination (some l) (some s) = some (l, s) ↔
        1 ≤ l ∧ l ≤ 100 ∧ 0 ≤ s) ∧
    (∀ (store : Store) (l s : Int),
      ListingWindow ((store.map (·.2)).filter (fun a => a.type == "movie"))
        (get_movies store l s) l s ∧
      ListingWindow ((store.map (·.2)).filter (fun a => a.type == "series"))
        (get_series store l s) l s ∧
      ListingWindow (store.map (·.2)) (get_latest store l s) l s) ∧
    (∀ (store : Store) (l s : Int),
      (∀ a ∈ get_movies store l s, a.type = "movie") ∧
      (∀ a ∈ get_series store l s, a.type = "series") ∧
      List.Pairwise (fun a b => b.added_at ≤ a.added_at)
        (get_latest store l s) ∧
      (get_movies store l s).length ≤ l.toNat) := by
  refine ⟨rfl, fun l s => ?_, fun store l s => ⟨?_, ?_, ?_⟩,
    fun store l s => ⟨?_, ?_, ?_, ?_⟩⟩
  · constructor
    · intro h
      by_contra hc
      simp only [pagination, Option.getD_some] at h
      rw [if_neg hc] at h
      exact Option.noConfusion h
    · intro hc
      simp only [pagination, Option.getD_some]
      rw [if_pos hc]
  · exact listDocs_window store (fun a => a.type == "movie") l s
  · exact listDocs_window store (fun a => a.type == "series") l s
  · have h := listDocs_window store (fun _ => true) l s
    rw [List.filter_true] at h
    exact h
  · exact fun a ha =>
      eq_of_beq (listDocs_mem store (fun a => a.type == "movie") l s a ha)
  · exact fun a ha =>
      eq_of_beq (listDocs_mem store (fun a => a.type == "series") l s a ha)
  · exact listDocs_sorted store (fun _ => true) l s
  · exact List.length_take_le _ _

/-- Witness for C8: the pagination bounds at (24, 0) and the movie fixture
appearing in its own movies listing. -/
theorem listings_spec_witness :
    pagination (some 24) (some 0) = some (24, 0) ∧
    movieDoc.type = "movie" := by
  constructor
  · exact (listings_spec.2.1 24 0).mpr (by decide)
  · refine (listings_spec.2.2.2 [(oid1, movieDoc)] 24 0).1 movieDoc ?_
    have h : get_movies [(oid1, movieDoc)] 24 0 = [movieDoc] := by
      simp [get_movies, listDocs, sortByAddedAtDesc, movieDoc,
        List.mergeSort_singleton]
    rw [h]
    exact List.mem_singleton.mpr rfl
